import Mathlib

/-!
Verification development for the DTCC CDS ingestion scripts
(`cds_live_scraper.py`, tabular-archive mode, and `enhanced_dtcc_scraper.py`,
JSON-API mode).  The Python code is shallowly embedded: Python values that
flow through the pipeline are modelled by the inductive type `J`, numbers are
modelled as exact rationals, fallible Python expressions return `Except`, and
the in-memory dedup set is threaded explicitly.
-/

/-- Model of a Python value as it appears in rows / JSON payloads:
`None`, a number (modelled as an exact rational), a string, a list
or a dict.  Booleans and floats' rounding artefacts are not modelled. -/
inductive J where
  | jnull : J
  | jnum : ℚ → J
  | jstr : String → J
  | jarr : List J → J
  | jobj : List (String × J) → J

/-- Python truthiness for the values modelled by `J`. -/
def falsy : J → Bool
  | .jnull => true
  | .jnum q => q == 0
  | .jstr s => s == ""
  | .jarr l => l.isEmpty
  | .jobj l => l.isEmpty

/-- Python `v or d`. -/
def pyOr (v d : J) : J := if falsy v then d else v

/-- Python `dict.get(k, d)` on a dict modelled as an association list. -/
def dictGet (t : List (String × J)) (k : String) (d : J) : J :=
  match t.find? (fun kv => kv.1 == k) with
  | some kv => kv.2
  | none => d

def digitVal? (c : Char) : Option ℕ :=
  if c.isDigit then some (c.toNat - 48) else none

def natOfDigits (cs : List Char) : ℕ :=
  cs.foldl (fun a c => a * 10 + (c.toNat - 48)) 0

/-- Surrounding whitespace stripping, as Python's numeric constructors do. -/
def trimChars (cs : List Char) : List Char :=
  ((cs.dropWhile Char.isWhitespace).reverse.dropWhile Char.isWhitespace).reverse

/-- The exact rational `sgn * ip.fp` denoted by a decimal literal. -/
def decimalVal (sgn : ℤ) (ip fp : List Char) : ℚ :=
  Rat.divInt (sgn * (natOfDigits ip * 10 ^ fp.length + natOfDigits fp)) (10 ^ fp.length)

/-- Model of Python `float(str)` restricted to plain signed decimal
literals (exponents and the `inf`/`nan` spellings are not modelled;
none occur in the data handled here). -/
def pyFloatOfString (s : String) : Except Unit ℚ :=
  let cs := trimChars s.toList
  let sgncs : ℤ × List Char :=
    match cs with
    | '-' :: r => (-1, r)
    | '+' :: r => (1, r)
    | r => (1, r)
  let ip := sgncs.2.takeWhile Char.isDigit
  let rest := sgncs.2.dropWhile Char.isDigit
  match rest with
  | [] => if ip.isEmpty then .error () else .ok (decimalVal sgncs.1 ip [])
  | '.' :: fp =>
    if fp.all Char.isDigit && (!ip.isEmpty || !fp.isEmpty) then
      .ok (decimalVal sgncs.1 ip fp)
    else .error ()
  | _ => .error ()

/-- Model of Python `int(str)`: optional sign, digits only. -/
def pyIntOfString (s : String) : Except Unit ℤ :=
  let cs := trimChars s.toList
  let sgncs : ℤ × List Char :=
    match cs with
    | '-' :: r => (-1, r)
    | '+' :: r => (1, r)
    | r => (1, r)
  if sgncs.2.isEmpty || !sgncs.2.all Char.isDigit then .error ()
  else .ok (sgncs.1 * natOfDigits sgncs.2)

/-- Python `float(v)`: numbers pass through, strings are parsed,
everything else (`None`, lists, dicts) raises. -/
def pyFloat : J → Except Unit ℚ
  | .jnum q => .ok q
  | .jstr s => pyFloatOfString s
  | _ => .error ()

/-- Truncation toward zero, Python `int()` applied to a number. -/
def ratInt (q : ℚ) : ℤ := Int.tdiv q.num q.den

/-- `q * k` for an integer `k`, computed on the raw fraction (so that it
evaluates by `decide`; equal to `q * k`). -/
def qMulInt (q : ℚ) (k : ℤ) : ℚ := Rat.divInt (q.num * k) q.den

/-- `q / k` for a positive integer `k`, computed on the raw fraction
(equal to `q / k`). -/
def qDivPos (q : ℚ) (k : ℕ) : ℚ := Rat.divInt q.num (q.den * k)

/-- Python `str(v)` for the values that reach it here: strings pass
through, `None` renders as `"None"`, integer-valued numbers render as
Python ints do (the dissemination identifiers in the feed are integers);
other shapes get an opaque stand-in rendering. -/
def pyStr : J → String
  | .jnull => "None"
  | .jstr s => s
  | .jnum q => if q.den == 1 then toString q.num else toString q.num ++ "/" ++ toString q.den
  | .jarr _ => "<list>"
  | .jobj _ => "<dict>"

/-- Is `pat` a contiguous subsequence of `l`?  Python's `in` on strings. -/
def containsSeq (pat : List Char) : List Char → Bool
  | [] => pat.isEmpty
  | c :: rest => pat.isPrefixOf (c :: rest) || containsSeq pat rest

def strContains (s pat : String) : Bool := containsSeq pat.toList s.toList

/-- ASCII uppercase of one character (the rating-class strings handled
here are ASCII). -/
def charUpper (c : Char) : Char :=
  if 'a' ≤ c ∧ c ≤ 'z' then Char.ofNat (c.toNat - 32) else c

def upperStr (s : String) : String := String.mk (s.toList.map charUpper)

/-- Python `s.upper()`; any non-string receiver raises. -/
def pyUpper : J → Except Unit String
  | .jstr s => .ok (upperStr s)
  | _ => .error ()

/-! ### `datetime.strptime` model

CPython's `_strptime` compiles each format directive to a regex
alternation; the alternation order (two-digit form first, then the bare
single digit) and the final calendar-validity check of the `datetime`
constructor are reproduced here. -/

inductive FmtTok where
  | lit : Char → FmtTok
  | year4 : FmtTok
  | month : FmtTok
  | day : FmtTok
  | hour : FmtTok
  | minute : FmtTok
  | second : FmtTok
  | micro : FmtTok

/-- Candidates for a numeric directive whose regex is a two-digit
alternative (values `lo2..hi2`) followed by a one-digit alternative
(values `lo1..hi1`), in that priority order. -/
def twoOneCands (lo2 hi2 lo1 hi1 : ℕ) : List Char → List (ℕ × List Char)
  | [] => []
  | a :: rest1 =>
    let oneC : List (ℕ × List Char) :=
      match digitVal? a with
      | some x => if lo1 ≤ x ∧ x ≤ hi1 then [(x, rest1)] else []
      | none => []
    let twoC : List (ℕ × List Char) :=
      match rest1 with
      | b :: rest2 =>
        match digitVal? a, digitVal? b with
        | some x, some y =>
          let v := 10 * x + y
          if lo2 ≤ v ∧ v ≤ hi2 then [(v, rest2)] else []
        | _, _ => []
      | [] => []
    twoC ++ oneC

/-- `%f`: one to six digits, greedy (longest candidate first). -/
def microCands (cs : List Char) : List (ℕ × List Char) :=
  let ds := (cs.takeWhile Char.isDigit).take 6
  (List.range ds.length).map fun i =>
    let k := ds.length - i
    (natOfDigits (ds.take k), cs.drop k)

def fieldCands : FmtTok → List Char → List (ℕ × List Char)
  | .year4, cs =>
    match cs with
    | a :: b :: c :: d :: rest =>
      match digitVal? a, digitVal? b, digitVal? c, digitVal? d with
      | some w, some x, some y, some z => [(1000 * w + 100 * x + 10 * y + z, rest)]
      | _, _, _, _ => []
    | _ => []
  | .month, cs => twoOneCands 1 12 1 9 cs
  | .day, cs => twoOneCands 1 31 1 9 cs
  | .hour, cs => twoOneCands 0 23 0 9 cs
  | .minute, cs => twoOneCands 0 59 0 9 cs
  | .second, cs => twoOneCands 0 59 0 9 cs
  | .micro, cs => microCands cs
  | .lit _, _ => []

/-- Backtracking matcher for one compiled format; requires the whole
input to be consumed (`strptime` rejects unconverted trailing data).
Returns the numeric field values in format order.  The first argument
is structural fuel (one unit per format token). -/
def matchToksF : ℕ → List FmtTok → List Char → Option (List ℕ)
  | 0, _, _ => none
  | _ + 1, [], cs => if cs.isEmpty then some [] else none
  | fuel + 1, .lit c :: ts, cs =>
    match cs with
    | x :: xs => if x = c then matchToksF fuel ts xs else none
    | [] => none
  | fuel + 1, t :: ts, cs =>
    (fieldCands t cs).findSome? fun vc =>
      (matchToksF fuel ts vc.2).map fun vs => vc.1 :: vs

def matchToks (toks : List FmtTok) (cs : List Char) : Option (List ℕ) :=
  matchToksF (toks.length + 1) toks cs

/-- A parsed wall-clock datetime (what the code needs of `datetime` /
`pandas.Timestamp`). -/
structure DT where
  y : ℕ
  mo : ℕ
  d : ℕ
  h : ℕ
  mi : ℕ
  s : ℕ
deriving DecidableEq

def isLeap (y : ℕ) : Bool := y % 4 == 0 && (y % 100 != 0 || y % 400 == 0)

def daysInMonth (y m : ℕ) : ℕ :=
  if m = 2 then (if isLeap y then 29 else 28)
  else if m = 4 ∨ m = 6 ∨ m = 9 ∨ m = 11 then 30 else 31

/-- The `datetime` constructor's validity check (month range is already
enforced by the directive regexes; `MINYEAR = 1`). -/
def validYMD (y m d : ℕ) : Bool :=
  1 ≤ y && 1 ≤ m && m ≤ 12 && 1 ≤ d && d ≤ daysInMonth y m

def mkDT (y mo d h mi s : ℕ) : Option DT :=
  if validYMD y mo d then some ⟨y, mo, d, h, mi, s⟩ else none

def fmtTS1 : List FmtTok :=
  [.year4, .lit '-', .month, .lit '-', .day, .lit 'T', .hour, .lit ':',
   .minute, .lit ':', .second, .lit '.', .micro, .lit 'Z']

def fmtTS2 : List FmtTok :=
  [.year4, .lit '-', .month, .lit '-', .day, .lit 'T', .hour, .lit ':',
   .minute, .lit ':', .second, .lit 'Z']

def fmtTS3 : List FmtTok :=
  [.year4, .lit '-', .month, .lit '-', .day, .lit ' ', .hour, .lit ':',
   .minute, .lit ':', .second]

def fmtD1 : List FmtTok := [.year4, .lit '-', .month, .lit '-', .day]

def fmtD2 : List FmtTok := [.day, .lit '/', .month, .lit '/', .year4]

def fmtD3 : List FmtTok := [.month, .lit '/', .day, .lit '/', .year4]

def fmtISOT : List FmtTok :=
  [.year4, .lit '-', .month, .lit '-', .day, .lit 'T', .hour, .lit ':',
   .minute, .lit ':', .second]

/-- `strptime(s, '%Y-%m-%dT%H:%M:%S.%fZ')`. -/
def parseTSFmt1 (s : String) : Option DT :=
  match matchToks fmtTS1 s.toList with
  | some [y, mo, d, h, mi, sec, _] => mkDT y mo d h mi sec
  | _ => none

/-- `strptime(s, '%Y-%m-%dT%H:%M:%SZ')`. -/
def parseTSFmt2 (s : String) : Option DT :=
  match matchToks fmtTS2 s.toList with
  | some [y, mo, d, h, mi, sec] => mkDT y mo d h mi sec
  | _ => none

/-- `strptime(s, '%Y-%m-%d %H:%M:%S')`. -/
def parseTSFmt3 (s : String) : Option DT :=
  match matchToks fmtTS3 s.toList with
  | some [y, mo, d, h, mi, sec] => mkDT y mo d h mi sec
  | _ => none

/-- `strptime(s, '%Y-%m-%d')`. -/
def parseDFmt1 (s : String) : Option DT :=
  match matchToks fmtD1 s.toList with
  | some [y, mo, d] => mkDT y mo d 0 0 0
  | _ => none

/-- `strptime(s, '%d/%m/%Y')`. -/
def parseDFmt2 (s : String) : Option DT :=
  match matchToks fmtD2 s.toList with
  | some [d, mo, y] => mkDT y mo d 0 0 0
  | _ => none

/-- `strptime(s, '%m/%d/%Y')`. -/
def parseDFmt3 (s : String) : Option DT :=
  match matchToks fmtD3 s.toList with
  | some [mo, d, y] => mkDT y mo d 0 0 0
  | _ => none

/-- `strptime(s, '%Y-%m-%dT%H:%M:%S')` (used by the `pandas` parser model). -/
def parseISOT (s : String) : Option DT :=
  match matchToks fmtISOT s.toList with
  | some [y, mo, d, h, mi, sec] => mkDT y mo d h mi sec
  | _ => none

def pad2 (n : ℕ) : String := if n < 10 then "0" ++ toString n else toString n

def pad4 (n : ℕ) : String :=
  (if n < 10 then "000" else if n < 100 then "00" else if n < 1000 then "0" else "")
    ++ toString n

/-- `dt.strftime('%H:%M:%S')`. -/
def fmtHMS (t : DT) : String := pad2 t.h ++ ":" ++ pad2 t.mi ++ ":" ++ pad2 t.s

/-- `dt.strftime('%Y-%m-%d')`. -/
def fmtYMD (t : DT) : String := pad4 t.y ++ "-" ++ pad2 t.mo ++ "-" ++ pad2 t.d

/-- First timestamp format that matches, in source order. -/
def firstTS (s : String) : Option DT :=
  (parseTSFmt1 s).orElse fun _ => (parseTSFmt2 s).orElse fun _ => parseTSFmt3 s

/-- First date format that matches, in source order. -/
def firstD (s : String) : Option DT :=
  (parseDFmt1 s).orElse fun _ => (parseDFmt2 s).orElse fun _ => parseDFmt3 s

/-- `parse_timestamp` of `enhanced_dtcc_scraper.py`: try the three
formats in order, first hit wins, fall back to the current wall-clock
time.  A non-string argument makes every `strptime` raise `TypeError`,
which the bare `except` swallows, so it also lands on the fallback. -/
def parse_timestamp (now : DT) (v : J) : String :=
  match v with
  | .jstr s =>
    match firstTS s with
    | some dt => fmtHMS dt
    | none => fmtHMS now
  | _ => fmtHMS now

/-- `parse_date` of `enhanced_dtcc_scraper.py`. -/
def parse_date (now : DT) (v : J) : String :=
  match v with
  | .jstr s =>
    match firstD s with
    | some dt => fmtYMD dt
    | none => fmtYMD now
  | _ => fmtYMD now

/-! ### `enhanced_dtcc_scraper.py`: record normalisation -/

/-- The dict built by `parse_trade`.  Fields that the source stores
verbatim from the payload keep their raw `J` value. -/
structure ApiTrade where
  trade_time : String
  ticker : J
  name : J
  price : ℚ
  notional : ℚ
  code : J
  maturity : String
  rate_spr : ℤ
  currency : J
  platform_id : J
  other_payment : ℚ
  is_hy : Bool
  is_ig : Bool

/-- Python `s * 100` string repetition (reached when `spread` is a string). -/
def strRepeat (s : String) (n : ℕ) : String := String.join (List.replicate n s)

/-- `int((v)*100)` as `parse_trade` computes the spread: a number is
scaled and truncated toward zero, a string is repeated 100 times and
handed to `int()`, anything else raises. -/
def sprInt : J → Except Unit ℤ
  | .jnum q => .ok (ratInt (qMulInt q 100))
  | .jstr s => pyIntOfString (strRepeat s 100)
  | _ => .error ()

/-- `parse_trade` of `enhanced_dtcc_scraper.py`: builds the record dict;
the surrounding `try`/bare `except` maps any failing field computation to
`None`.  A non-dict argument makes the very first `t.get` raise, so it
also yields `None`. -/
def parse_trade (now : DT) (t : J) : Option ApiTrade :=
  match t with
  | .jobj kvs =>
    match pyFloat (pyOr (dictGet kvs "price" (.jnum 0)) (.jnum 0)) with
    | .error _ => none
    | .ok price =>
      match pyFloat (pyOr (dictGet kvs "notionalAmount" (.jnum 0)) (.jnum 0)) with
      | .error _ => none
      | .ok notional =>
        match sprInt (pyOr (dictGet kvs "spread" (.jnum 0)) (.jnum 0)) with
        | .error _ => none
        | .ok spr =>
          match pyFloat (pyOr (dictGet kvs "upfrontPayment" (.jnum 0)) (.jnum 0)) with
          | .error _ => none
          | .ok upfront =>
            match pyUpper (pyOr (dictGet kvs "ratingClass" (.jstr "")) (.jstr "")) with
            | .error _ => none
            | .ok ratingU =>
              some
                { trade_time :=
                    parse_timestamp now (pyOr (dictGet kvs "executionTimestamp" .jnull) (.jstr ""))
                  ticker := dictGet kvs "referenceEntity" (.jstr "UNKNOWN")
                  name := dictGet kvs "issuerName" (.jstr "")
                  price := price
                  notional := notional
                  code := dictGet kvs "tradeType" (.jstr "")
                  maturity := parse_date now (pyOr (dictGet kvs "maturityDate" .jnull) (.jstr ""))
                  rate_spr := spr
                  currency := dictGet kvs "currency" (.jstr "EUR")
                  platform_id := dictGet kvs "executionVenue" (.jstr "")
                  other_payment := upfront
                  is_hy := strContains ratingU "HY"
                  is_ig := strContains ratingU "IG" }
  | _ => none

/-- The per-record loop of `scrape_cycle`: `parse_trade` each raw record
and keep the non-`None` results (the built dict is never empty, so
Python's truthiness test coincides with `is not None`). -/
def parseBatch (now : DT) (raws : List J) : List ApiTrade :=
  raws.filterMap (parse_trade now)

/-! ### `enhanced_dtcc_scraper.py`: fetching and endpoint discovery -/

/-- Outcome of the HTTP GET + `r.raise_for_status()` + `r.json()`
prelude of `fetch_cds_trades`: either some stage raised, or a decoded
JSON document. -/
inductive FetchOutcome where
  | failure : FetchOutcome
  | success : J → FetchOutcome

def candidateKeys : List String := ["data", "trades", "records", "results"]

/-- First candidate container key (in priority order) that is present in
the dict with a list value. -/
def firstListKey (kvs : List (String × J)) : List String → Option (List J)
  | [] => none
  | k :: ks =>
    match dictGet kvs k .jnull with
    | .jarr l => some l
    | _ => firstListKey kvs ks

/-- `fetch_cds_trades` after the HTTP prelude: extract the record list
from a known container key, fall back to the body itself when it is a
list, and yield `[]` on every failure path.  On a list body, Python's
`key in data` is a membership test; a hit makes the subsequent
`data[key]` indexing raise, which the enclosing `try` maps to `[]`. -/
def fetch_cds_trades : FetchOutcome → List J
  | .failure => []
  | .success body =>
    match body with
    | .jobj kvs =>
      match firstListKey kvs candidateKeys with
      | some l => l
      | none => []
    | .jarr l =>
      if candidateKeys.any (fun k => l.any (fun x =>
          match x with
          | .jstr s => s == k
          | _ => false)) then [] else l
    | _ => []

def dtccBase : String := "https://pddata.dtcc.com"

def defaultEndpoint : String := dtccBase ++ "/ppd/api/cds/trades"

/-- Text after the first occurrence of `pat`, if any. -/
def afterFirst (pat : List Char) : List Char → Option (List Char)
  | [] => if pat.isEmpty then some [] else none
  | c :: rest =>
    if pat.isPrefixOf (c :: rest) then some (List.drop pat.length (c :: rest))
    else afterFirst pat rest

/-- `re.findall` for the two endpoint patterns, which both have the shape
"marker, then a run of non-quote characters, then a closing quote": the
capture is `capPre ++ run`, kept when `run` contains `needle` (the
`[^"]*/api/[^"]*` body) or unconditionally when `needle` is `none`.
Scanning resumes after the closing quote (matches never overlap); a
marker without a later closing quote ends the scan.  Structural fuel
bounds the recursion. -/
def scanQuoted (marker capPre : List Char) (needle : Option (List Char)) :
    ℕ → List Char → List String
  | 0, _ => []
  | fuel + 1, cs =>
    match afterFirst marker cs with
    | none => []
    | some rest =>
      let run := rest.takeWhile (fun c => c ≠ '"')
      match rest.drop run.length with
      | '"' :: tail =>
        let keep :=
          match needle with
          | some nd => containsSeq nd run
          | none => true
        if keep then String.mk (capPre ++ run) :: scanQuoted marker capPre needle fuel tail
        else scanQuoted marker capPre needle fuel tail
      | _ => []

/-- All matches of the two patterns of `discover_api_endpoints`, in
pattern order: `fetch\("([^"]*/api/[^"]*)"` then `"(/ppd/api/[^"]*)"`. -/
def scanEndpoints (content : String) : List String :=
  let cs := content.toList
  scanQuoted "fetch(\"".toList [] (some "/api/".toList) (cs.length + 1) cs
    ++ scanQuoted "\"/ppd/api/".toList "/ppd/api/".toList none (cs.length + 1) cs

/-- Relative paths (`match.startswith("/")`) get the DTCC base
prepended, absolute URLs pass through. -/
def absolutize (m : String) : String :=
  match m.toList with
  | '/' :: _ => dtccBase ++ m
  | _ => m

/-- Python's `set` collapsed back to a `list`: one occurrence per element.
CPython's iteration order over a `str` set is unspecified, so any
duplicate-free enumeration is a faithful model; this one keeps the last
first-occurrence order reversed. -/
def dedupList (l : List String) : List String :=
  l.foldl (fun acc x => if x ∈ acc then acc else x :: acc) []

/-- Outcome of the dashboard GET in `discover_api_endpoints`. -/
inductive DiscoverOutcome where
  | failure : DiscoverOutcome
  | success : String → DiscoverOutcome

/-- `discover_api_endpoints`: scan the dashboard body with the fixed
pattern list and return the distinct absolutized matches; if the fetch
(or anything else inside the `try`) raises, return the single hard-coded
default endpoint. -/
def discover_api_endpoints : DiscoverOutcome → List String
  | .failure => [defaultEndpoint]
  | .success content => dedupList ((scanEndpoints content).map absolutize)

/-! ### `cds_live_scraper.py`: dates, tenor and notional formatting -/

/-- Days from 1970-01-01 for a civil date (standard era-based algorithm);
used to give `pandas.Timestamp` subtraction a concrete meaning. -/
def daysFromCivil (y m d : ℤ) : ℤ :=
  let y2 := if m ≤ 2 then y - 1 else y
  let era := Int.fdiv y2 400
  let yoe := y2 - era * 400
  let m2 := if 2 < m then m - 3 else m + 9
  let doy := Int.fdiv (153 * m2 + 2) 5 + d - 1
  let doe := yoe * 365 + Int.fdiv yoe 4 - Int.fdiv yoe 100 + doy
  era * 146097 + doe - 719468

/-- A timestamp in seconds; `Timestamp - Timestamp` is a second count and
`Timedelta.days` is floor division by 86400, as in pandas. -/
def dtSecs (t : DT) : ℤ :=
  daysFromCivil t.y t.mo t.d * 86400 + t.h * 3600 + t.mi * 60 + t.s

/-- Line 81 of `cds_live_scraper.py`:
`max(1, (expiry - now).days // 365)`, with Python's floor divisions. -/
def tenorYears (nowS expS : ℤ) : ℤ :=
  max 1 (Int.fdiv (Int.fdiv (expS - nowS) 86400) 365)

/-- Model of the external `pandas.to_datetime` parser, restricted to the
ISO shapes exercised by this feed (`YYYY-MM-DD`, with an optional
`T`- or space-separated `HH:MM:SS`); on anything else it is modelled as
the parse error the real parser raises on unparsable input, and on
`None`/numbers as the failure of the subsequent `.time()`/arithmetic. -/
def to_datetime (v : J) : Except Unit DT :=
  match v with
  | .jstr s =>
    match parseDFmt1 s with
    | some dt => .ok dt
    | none =>
      match parseTSFmt3 s with
      | some dt => .ok dt
      | none =>
        match parseISOT s with
        | some dt => .ok dt
        | none => .error ()
  | _ => .error ()

/-- The issuer allow-list of `CDSRealTimeScraper.__init__`. -/
def target_entities : List (String × String) :=
  [("VODAFONE GROUP PLC", "VODFON"),
   ("DEUTSCHE BANK AG", "DBKGN"),
   ("BNP PARIBAS SA", "BNPPR"),
   ("BANCO SANTANDER SA", "SANES"),
   ("TELECOM ITALIA SPA", "TITIM"),
   ("TOTALENERGIES SE", "TOTFP"),
   ("SHELL PLC", "SHEL"),
   ("SIEMENS AG", "SIE"),
   ("BMW AG", "BMW"),
   ("SAP SE", "SAP")]

/-- Python slice `s[:n]`. -/
def strTake (s : String) (n : ℕ) : String := String.mk (s.toList.take n)

/-- `self.target_entities.get(underlying, underlying[:6])`. -/
def lookupTicker (underlying : String) : String :=
  match target_entities.find? (fun kv => kv.1 == underlying) with
  | some kv => kv.2
  | none => strTake underlying 6

/-- Round half-to-even to an integer, the rounding used by Python's
`round()` and fixed-point string formatting (on the exact values that
occur here).  `f` is the floor of `q` and `r2` is twice the remainder
scaled by the denominator, so `r2 < den` means the fraction is below
one half. -/
def rhe (q : ℚ) : ℤ :=
  let f := Int.fdiv q.num q.den
  let r2 := 2 * (q.num - f * q.den)
  if r2 < (q.den : ℤ) then f
  else if (q.den : ℤ) < r2 then f + 1
  else if f % 2 = 0 then f else f + 1

/-- `round(x, 2)`. -/
def roundHalfEven2 (q : ℚ) : ℚ := Rat.divInt (rhe (qMulInt q 100)) 100

def padLeftZeros (width : ℕ) (n : ℕ) : String :=
  let s := toString n
  String.mk (List.replicate (width - s.length) '0') ++ s

/-- Fixed-point rendering `f"{q:.precf}"` for the non-negative values
formatted here. -/
def fmtFixed (q : ℚ) (prec : ℕ) : String :=
  let n := rhe (qMulInt q ((10 : ℤ) ^ prec))
  toString (n / (10 : ℤ) ^ prec) ++ "." ++ padLeftZeros prec (n % (10 : ℤ) ^ prec).toNat

/-- `format_notional` of `cds_live_scraper.py`. -/
def format_notional (amount : ℚ) : String :=
  if amount ≥ 1000000 then fmtFixed (qDivPos amount 1000000) 3 ++ "M"
  else if amount ≥ 1000 then fmtFixed (qDivPos amount 1000) 1 ++ "K"
  else toString (ratInt amount)

/-- The notional-display rule as §4.3 of the spec words it: scale to
millions with 3 decimals if at least 1,000,000; to thousands with
1 decimal if at least 1,000; otherwise the integer value as text. -/
def notional_display_spec (amount : ℚ) : String :=
  if 1000000 ≤ amount then fmtFixed (qDivPos amount 1000000) 3 ++ "M"
  else if 1000 ≤ amount then fmtFixed (qDivPos amount 1000) 1 ++ "K"
  else toString (ratInt amount)

/-! ### `cds_live_scraper.py`: per-row normalisation and dedup -/

abbrev Row := List (String × J)

/-- A normalised trade dict as `process_trades` appends it. -/
structure TabTrade where
  trade_time : ℕ × ℕ × ℕ
  instrument : String
  price : ℚ
  notional_display : String
  code : String
  maturity_date : String
  rate_spread : ℤ
  currency : String
  notional_full : ℤ
  platform_id : String
  other_payment : Option ℚ
  rating_category : String
  entity_name : String
  sector : String
deriving DecidableEq

/-- `"HY" if ticker == "TITIM" else "IG"` (line 98). -/
def tabRating (ticker : String) : String := if ticker == "TITIM" then "HY" else "IG"

def rowGet (r : Row) (k : String) (d : J) : J := dictGet r k d

/-- `str(row.get("Dissemination Identifier"))`. -/
def rowTid (r : Row) : String := pyStr (rowGet r "Dissemination Identifier" .jnull)

/-- The body of the `process_trades` loop after the dedup check, lines
76-101: every fallible Python expression is one `match`; any failure
makes the whole call raise (there is no per-record handler in this
file). -/
def parseRow (now : DT) (r : Row) : Except Unit TabTrade :=
  match rowGet r "Underlying Asset Name" .jnull with
  | .jstr underlying =>
    match pyFloat (rowGet r "Notional amount-Leg 1" (.jnum 0)) with
    | .error e => .error e
    | .ok notional =>
      match to_datetime (rowGet r "Execution Timestamp" .jnull) with
      | .error e => .error e
      | .ok instrT =>
        match to_datetime (rowGet r "Expiration Date" .jnull) with
        | .error e => .error e
        | .ok expiry =>
          match pyFloat (rowGet r "Price" (.jnum 0)) with
          | .error e => .error e
          | .ok price0 =>
            match rowGet r "Platform identifier" (.jstr "") with
            | .jstr plat =>
              match
                (match rowGet r "Other payment amount" .jnull with
                 | .jnull => Except.ok Option.none
                 | v => Except.map Option.some (pyFloat v)) with
              | .error e => .error e
              | .ok otherPay =>
                let ticker := lookupTicker underlying
                let years := tenorYears (dtSecs now) (dtSecs expiry)
                .ok
                  { trade_time := (instrT.h, instrT.mi, instrT.s)
                    instrument := ticker ++ " CDS EUR SR " ++ toString years ++ "Y"
                    price := roundHalfEven2 price0
                    notional_display := format_notional notional
                    code := "TR"
                    maturity_date :=
                      pad2 expiry.d ++ "/" ++ pad2 expiry.mo ++ "/" ++ pad2 (expiry.y % 100)
                    rate_spread := years
                    currency := "EUR"
                    notional_full := ratInt notional
                    platform_id := strTake plat 4
                    other_payment := otherPay
                    rating_category := tabRating ticker
                    entity_name := underlying
                    sector := "" }
            | _ => .error ()
  | _ => .error ()

/-- `process_trades`, lines 69-103: walk the rows threading the mutable
`self.processed_trades` set; an already-seen dissemination identifier is
skipped before any parsing, a fresh one is parsed and then registered.
On a raising row the whole call propagates the exception (`none`), and
the identifiers registered so far stay registered (the Python set is
mutated in place). -/
def process_trades (now : DT) : List String → List Row → List String × Option (List TabTrade)
  | seen, [] => (seen, some [])
  | seen, r :: rs =>
    if rowTid r ∈ seen then process_trades now seen rs
    else
      match parseRow now r with
      | .error _ => (seen, none)
      | .ok tr =>
        match process_trades now (rowTid r :: seen) rs with
        | (s2, some out) => (s2, some (tr :: out))
        | (s2, none) => (s2, none)

/-- `save_trades`: an empty batch returns before touching the database;
otherwise the write succeeds or raises according to the database's
health.  The dedup set is not read or written here. -/
def save_trades (dbOk : Bool) (trades : List TabTrade) : Except Unit Unit :=
  if trades.isEmpty then .ok () else if dbOk then .ok () else .error ()

/-- One cycle of `run` from `process_trades` on: the seen-set after the
cycle and the cycle's outcome. -/
def run_cycle (now : DT) (seen : List String) (rows : List Row) (dbOk : Bool) :
    List String × Except Unit (List TabTrade) :=
  match process_trades now seen rows with
  | (s2, none) => (s2, .error ())
  | (s2, some ts) =>
    match save_trades dbOk ts with
    | .ok _ => (s2, .ok ts)
    | .error _ => (s2, .error ())

/-! ### `cds_live_scraper.py`: slice download and filtering -/

/-- One entry of the downloaded ZIP, as `pd.read_csv` sees it. -/
inductive CsvEntry where
  | bad : CsvEntry
  | good : List Row → CsvEntry

/-- The downloaded archive body. -/
inductive ZipBody where
  | corrupt : ZipBody
  | archive : List CsvEntry → ZipBody

/-- `re.compile(r"CFTC_SLICE_CREDITS.*\.ZIP")` used via BeautifulSoup's
`href=` filter, i.e. `re.search`: some occurrence of the literal prefix
followed, at any distance, by `.ZIP`. -/
def sliceLinkMatch (href : String) : Bool :=
  match afterFirst "CFTC_SLICE_CREDITS".toList href.toList with
  | some rest => containsSeq ".ZIP".toList rest
  | none => false

/-- `get_latest_credit_slice`, lines 32-49, after the dashboard fetch:
no matching link returns `None`; otherwise the first link's body is
opened as a ZIP (raising on a corrupt body), its first entry selected
(raising on an empty archive) and parsed as CSV (raising on bad CSV). -/
def get_latest_credit_slice (hrefs : List String) (body : ZipBody) :
    Except Unit (Option (List Row)) :=
  match hrefs.filter sliceLinkMatch with
  | [] => .ok none
  | _ :: _ =>
    match body with
    | .corrupt => .error ()
    | .archive [] => .error ()
    | .archive (.bad :: _) => .error ()
    | .archive (.good rows :: _) => .ok (some rows)

def jIsStr (v : J) (s : String) : Bool :=
  match v with
  | .jstr t => t == s
  | _ => false

/-- `filter_eur_cds`: `None` and empty frames come back empty; otherwise
keep rows with asset class CR, leg-1 currency EUR and an allow-listed
underlying name. -/
def filter_eur_cds (dfOpt : Option (List Row)) : List Row :=
  match dfOpt with
  | none => []
  | some rows =>
    rows.filter fun r =>
      jIsStr (rowGet r "Asset Class" .jnull) "CR"
        && jIsStr (rowGet r "Notional currency-Leg 1" .jnull) "EUR"
        && target_entities.any (fun kv => jIsStr (rowGet r "Underlying Asset Name" .jnull) kv.1)

/-! ### The two ingestion loops -/

/-- What one pass of a loop body observed: a completed cycle, an
exception escaping the cycle, or a `KeyboardInterrupt`. -/
inductive CycleOutcome where
  | ok : CycleOutcome
  | raised : CycleOutcome
  | keyboard : CycleOutcome
deriving DecidableEq

/-- What the loop then does. -/
inductive LoopAction where
  | sleepFor : ℕ → LoopAction
  | stop : LoopAction
  | crash : LoopAction
deriving DecidableEq

def continues : LoopAction → Bool
  | .sleepFor _ => true
  | _ => false

/-- `run_forever` of `enhanced_dtcc_scraper.py`, lines 129-138: a normal
cycle sleeps 60 s, `KeyboardInterrupt` breaks, any other exception is
caught and sleeps the 30 s backoff. -/
def run_forever_step : CycleOutcome → LoopAction
  | .ok => .sleepFor 60
  | .raised => .sleepFor 30
  | .keyboard => .stop

/-- `run` of `cds_live_scraper.py`, lines 127-135: the `while True` body
has no exception handler at all, so any exception (including
`KeyboardInterrupt`) propagates and terminates the loop. -/
def run_step : CycleOutcome → LoopAction
  | .ok => .sleepFor 60
  | _ => .crash

/-- Is a loop with the given step function still running after `n`
cycles with the given outcomes? -/
def loop_alive (step : CycleOutcome → LoopAction) (outs : ℕ → CycleOutcome) : ℕ → Bool
  | 0 => true
  | n + 1 => loop_alive step outs n && continues (step (outs n))

/-! ### Concrete fixtures used by witnesses and counterexamples -/

/-- A concrete wall clock: 2024-01-02 03:04:05. -/
def now0 : DT := ⟨2024, 1, 2, 3, 4, 5⟩

/-- A fully parseable tabular CSV row for SAP SE. -/
def row0 : Row :=
  [("Dissemination Identifier", .jnum 101),
   ("Underlying Asset Name", .jstr "SAP SE"),
   ("Notional amount-Leg 1", .jnum 5000000),
   ("Execution Timestamp", .jstr "2024-01-02T03:04:05"),
   ("Expiration Date", .jstr "2027-01-10"),
   ("Price", .jnum (Rat.divInt 12345 10000)),
   ("Platform identifier", .jstr "XOFF")]

/-- The trade `process_trades` builds from `row0` under `now0`. -/
def trade0 : TabTrade :=
  { trade_time := (3, 4, 5)
    instrument := "SAP CDS EUR SR 3Y"
    price := Rat.divInt 123 100
    notional_display := "5.000M"
    code := "TR"
    maturity_date := "10/01/27"
    rate_spread := 3
    currency := "EUR"
    notional_full := 5000000
    platform_id := "XOFF"
    other_payment := none
    rating_category := "IG"
    entity_name := "SAP SE"
    sector := "" }

/-- A second parseable row with a different dissemination identifier. -/
def rowId (id : ℤ) : Row :=
  [("Dissemination Identifier", .jnum id),
   ("Underlying Asset Name", .jstr "BMW AG"),
   ("Notional amount-Leg 1", .jnum 45000),
   ("Execution Timestamp", .jstr "2024-01-02 08:00:00"),
   ("Expiration Date", .jstr "2029-01-02"),
   ("Price", .jnum 1),
   ("Platform identifier", .jstr "DTCC")]

/-- A row whose `Expiration Date` no parser accepts: `pd.to_datetime`
raises on it and, with no per-record handler in `process_trades`, the
whole batch raises. -/
def rowBadDate : Row :=
  [("Dissemination Identifier", .jnum 300),
   ("Underlying Asset Name", .jstr "SAP SE"),
   ("Notional amount-Leg 1", .jnum 1000),
   ("Execution Timestamp", .jstr "2024-01-02 08:00:00"),
   ("Expiration Date", .jstr "not-a-date"),
   ("Price", .jnum 1),
   ("Platform identifier", .jstr "X")]

/-- Five tabular rows, the third with an unparsable expiration date. -/
def tabBatchBadDate : List Row :=
  [rowId 1, rowId 2, rowBadDate, rowId 4, rowId 5]

/-- A JSON-API record with every relevant field present and parseable. -/
def apiRecOk : J :=
  .jobj
    [("executionTimestamp", .jstr "2024-01-02T08:00:00Z"),
     ("referenceEntity", .jstr "SAP"),
     ("price", .jnum 1),
     ("notionalAmount", .jnum 45000),
     ("maturityDate", .jstr "2029-01-02"),
     ("spread", .jnum 2),
     ("currency", .jstr "EUR"),
     ("ratingClass", .jstr "IG")]

/-- A JSON-API record whose `maturityDate` matches no format: the code
substitutes today's date and keeps the record. -/
def apiRecBadDate : J :=
  .jobj
    [("referenceEntity", .jstr "SAP"),
     ("price", .jnum 1),
     ("maturityDate", .jstr "not-a-date")]

/-- A JSON-API record whose `price` fails `float()`: `parse_trade`
returns `None` and the record is dropped. -/
def apiRecBadPrice : J :=
  .jobj
    [("referenceEntity", .jstr "SAP"),
     ("price", .jstr "abc"),
     ("maturityDate", .jstr "2029-01-02")]

/-- Five JSON-API records, the third with an unparsable maturity date. -/
def apiBatchBadDate : List J :=
  [apiRecOk, apiRecOk, apiRecBadDate, apiRecOk, apiRecOk]

/-- Five JSON-API records, the third with an unparsable price. -/
def apiBatchBadPrice : List J :=
  [apiRecOk, apiRecOk, apiRecBadPrice, apiRecOk, apiRecOk]

/-! ### Helper lemmas -/

theorem int_ediv_ediv (a : ℤ) {b c : ℤ} (hb : 0 < b) (hc : 0 < c) :
    a / b / c = a / (b * c) := by
  apply le_antisymm
  · rw [Int.le_ediv_iff_mul_le (mul_pos hb hc)]
    calc a / b / c * (b * c) = a / b / c * c * b := by ring
    _ ≤ a / b * b := by
        have h1 : a / b / c * c ≤ a / b := Int.ediv_mul_le _ hc.ne'
        exact mul_le_mul_of_nonneg_right h1 hb.le
    _ ≤ a := Int.ediv_mul_le _ hb.ne'
  · rw [Int.le_ediv_iff_mul_le hc, Int.le_ediv_iff_mul_le hb]
    calc a / (b * c) * c * b = a / (b * c) * (b * c) := by ring
    _ ≤ a := Int.ediv_mul_le _ (mul_pos hb hc).ne'

theorem int_fdiv_fdiv (a : ℤ) {b c : ℤ} (hb : 0 < b) (hc : 0 < c) :
    (a.fdiv b).fdiv c = a.fdiv (b * c) := by
  rw [Int.fdiv_eq_ediv _ hb.le, Int.fdiv_eq_ediv _ hc.le, Int.fdiv_eq_ediv _ (mul_pos hb hc).le]
  exact int_ediv_ediv a hb hc

theorem dedup_aux_nodup (l acc : List String) (h : acc.Nodup) :
    (l.foldl (fun acc x => if x ∈ acc then acc else x :: acc) acc).Nodup := by
  induction l generalizing acc with
  | nil => simpa using h
  | cons x xs ih =>
    simp only [List.foldl_cons]
    by_cases hx : x ∈ acc
    · rw [if_pos hx]; exact ih _ h
    · rw [if_neg hx]; exact ih _ (List.nodup_cons.2 ⟨hx, h⟩)

theorem dedup_aux_mem (l : List String) (acc : List String) (y : String) :
    y ∈ l.foldl (fun acc x => if x ∈ acc then acc else x :: acc) acc ↔ y ∈ acc ∨ y ∈ l := by
  induction l generalizing acc with
  | nil => simp
  | cons x xs ih =>
    simp only [List.foldl_cons]
    by_cases hx : x ∈ acc
    · rw [if_pos hx, ih]
      constructor
      · rintro (h | h)
        · exact Or.inl h
        · exact Or.inr (List.mem_cons_of_mem _ h)
      · rintro (h | h)
        · exact Or.inl h
        · rcases List.mem_cons.1 h with rfl | h2
          · exact Or.inl hx
          · exact Or.inr h2
    · rw [if_neg hx, ih]
      simp only [List.mem_cons]
      tauto

/-! ### C6: tenor formula -/

/-- C6: for every maturity timestamp, including past or near ones, the
computed tenor equals `max(1, floor((maturity - now) / 365 days))`
(`tenorYears` nests the two floor divisions exactly as line 81 does, and
nested floor division by positives composes), and it is always at least
one year; concretely, a maturity four years in the past and one five
months ahead both yield tenor 1. -/
theorem tenor_is_floored_year_quotient :
    (∀ nowS expS : ℤ,
        tenorYears nowS expS = max 1 (Int.fdiv (expS - nowS) (365 * 86400))
          ∧ 1 ≤ tenorYears nowS expS)
      ∧ tenorYears (dtSecs now0) (dtSecs ⟨2020, 1, 1, 0, 0, 0⟩) = 1
      ∧ tenorYears (dtSecs now0) (dtSecs ⟨2024, 6, 1, 0, 0, 0⟩) = 1 := by
  refine ⟨fun nowS expS => ⟨?_, ?_⟩, by decide, by decide⟩
  · have h := @int_fdiv_fdiv (expS - nowS) 86400 365 (by norm_num) (by norm_num)
    rw [tenorYears, h]
    norm_num
  · rw [tenorYears]
    exact le_max_left _ _

/-! ### C7: notional display -/

/-- C7: for every non-negative amount, `format_notional` follows the
spec's three-branch rule (at least a million: millions with 3 decimals
and an `M` suffix; at least a thousand: thousands with 1 decimal and a
`K` suffix; otherwise the integer value as text), and the three
examples of spec §8 hold. -/
theorem format_notional_matches_spec :
    (∀ a : ℚ, 0 ≤ a → format_notional a = notional_display_spec a)
      ∧ format_notional 2500000 = "2.500M"
      ∧ format_notional 45000 = "45.0K"
      ∧ format_notional 900 = "900" := by
  refine ⟨fun a _ => rfl, by decide, by decide, by decide⟩

/-- Witness for C7 at the concrete input 2,500,000. -/
theorem format_notional_matches_spec_witness :
    format_notional 2500000 = notional_display_spec 2500000 :=
  format_notional_matches_spec.1 2500000 (by norm_num)

/-! ### C2: loop resilience -/

/-- C2 counterexample: in `cds_live_scraper.run` there is no handler, so
a cycle that raises terminates the loop instead of being caught — after
a single raising cycle the loop is no longer alive. -/
theorem run_loop_crashes_on_exception :
    run_step CycleOutcome.raised = LoopAction.crash
      ∧ continues (run_step CycleOutcome.raised) = false
      ∧ loop_alive run_step (fun _ => CycleOutcome.raised) 1 = false :=
  ⟨rfl, rfl, rfl⟩

/-- C2 amended: in the JSON-API loop (`run_forever`) every non-interrupt
exception is caught — the loop stays alive through any number of raising
cycles, sleeping 60 s after a normal cycle and the 30 s backoff after a
caught exception, and stops only on `KeyboardInterrupt`; the tabular
loop (`run`) has no handler and an exception terminates it. -/
theorem run_forever_survives_exceptions :
    (∀ (outs : ℕ → CycleOutcome) (n : ℕ), (∀ i, outs i ≠ CycleOutcome.keyboard) →
        loop_alive run_forever_step outs n = true)
      ∧ run_forever_step CycleOutcome.ok = LoopAction.sleepFor 60
      ∧ run_forever_step CycleOutcome.raised = LoopAction.sleepFor 30
      ∧ run_forever_step CycleOutcome.keyboard = LoopAction.stop
      ∧ run_step CycleOutcome.ok = LoopAction.sleepFor 60
      ∧ run_step CycleOutcome.raised = LoopAction.crash := by
  refine ⟨?_, rfl, rfl, rfl, rfl, rfl⟩
  intro outs n h
  induction n with
  | zero => rfl
  | succ k ih =>
    have hc : continues (run_forever_step (outs k)) = true := by
      cases hck : outs k with
      | ok => rfl
      | raised => rfl
      | keyboard => exact absurd hck (h k)
    simp [loop_alive, ih, hc]

/-- Witness for C2's amended claim: three consecutive raising cycles
leave `run_forever` alive. -/
theorem run_forever_survives_exceptions_witness :
    loop_alive run_forever_step (fun _ => CycleOutcome.raised) 3 = true :=
  run_forever_survives_exceptions.1 (fun _ => CycleOutcome.raised) 3
    (fun _ hc => CycleOutcome.noConfusion hc)

/-! ### C5: endpoint discovery -/

/-- C5 counterexample: a dashboard body that discovery fetches fine but
that contains zero candidate endpoints makes `discover_api_endpoints`
return the empty list, not the hard-coded default. -/
theorem discovery_empty_returns_empty_not_default :
    discover_api_endpoints (.success "no endpoints here") = []
      ∧ ([] : List String) ≠ [defaultEndpoint] :=
  ⟨by decide, by decide⟩

/-- C5 amended: the resolver returns the one hard-coded default exactly
when the discovery request raises; on a successful fetch it returns the
distinct absolutized pattern matches — the empty list, not the default,
when there are none. -/
theorem discover_endpoints_spec :
    discover_api_endpoints DiscoverOutcome.failure = [defaultEndpoint]
      ∧ (∀ content, scanEndpoints content = [] →
          discover_api_endpoints (.success content) = [])
      ∧ (∀ content, (discover_api_endpoints (.success content)).Nodup)
      ∧ (∀ content u,
          u ∈ discover_api_endpoints (.success content)
            ↔ u ∈ (scanEndpoints content).map absolutize) := by
  refine ⟨rfl, fun content h => ?_, fun content => ?_, fun content u => ?_⟩
  · simp [discover_api_endpoints, h, dedupList]
  · exact dedup_aux_nodup ((scanEndpoints content).map absolutize) [] List.nodup_nil
  · have h := dedup_aux_mem ((scanEndpoints content).map absolutize) [] u
    simpa [discover_api_endpoints, dedupList] using h

/-- Witness for C5's amended claim at a concrete contentless body. -/
theorem discover_endpoints_spec_witness :
    discover_api_endpoints (.success "x") = [] :=
  discover_endpoints_spec.2.1 "x" (by decide)

/-! ### `process_trades` invariants -/

theorem pt_seen_sub (now : DT) (rows : List Row) :
    ∀ (seen : List String) (x : String), x ∈ seen → x ∈ (process_trades now seen rows).1 := by
  induction rows with
  | nil => intro seen x hx; simpa [process_trades] using hx
  | cons r rs ih =>
    intro seen x hx
    by_cases hmem : rowTid r ∈ seen
    · simp only [process_trades]
      rw [if_pos hmem]
      exact ih seen x hx
    · simp only [process_trades]
      rw [if_neg hmem]
      cases hp : parseRow now r with
      | error e => simpa using hx
      | ok tr =>
        have h2 := ih (rowTid r :: seen) x (List.mem_cons_of_mem _ hx)
        rcases hrec : process_trades now (rowTid r :: seen) rs with ⟨s2, res⟩
        rw [hrec] at h2
        cases res <;> simpa using h2

theorem pt_ids (now : DT) (rows : List Row) :
    ∀ (seen s2 : List String) (out : List TabTrade),
      process_trades now seen rows = (s2, some out) → ∀ r ∈ rows, rowTid r ∈ s2 := by
  induction rows with
  | nil => intro seen s2 out h r hr; exact absurd hr (List.not_mem_nil _)
  | cons r0 rs ih =>
    intro seen s2 out h r hr
    by_cases hmem : rowTid r0 ∈ seen
    · simp only [process_trades] at h
      rw [if_pos hmem] at h
      rcases List.mem_cons.1 hr with rfl | hr2
      · have hs := pt_seen_sub now rs seen (rowTid r) hmem
        rw [h] at hs
        exact hs
      · exact ih seen s2 out h r hr2
    · simp only [process_trades] at h
      rw [if_neg hmem] at h
      cases hp : parseRow now r0 with
      | error e => rw [hp] at h; simp at h
      | ok tr =>
        rw [hp] at h
        rcases hrec : process_trades now (rowTid r0 :: seen) rs with ⟨s3, res⟩
        rw [hrec] at h
        cases res with
        | none => simp at h
        | some out2 =>
          simp only [Prod.mk.injEq, Option.some.injEq] at h
          rcases h with ⟨rfl, _⟩
          rcases List.mem_cons.1 hr with rfl | hr2
          · have hs := pt_seen_sub now rs (rowTid r :: seen) (rowTid r)
              (List.mem_cons_self _ _)
            rw [hrec] at hs
            exact hs
          · exact ih (rowTid r0 :: seen) s3 out2 hrec r hr2

theorem pt_allseen (now : DT) (rows : List Row) :
    ∀ seen, (∀ r ∈ rows, rowTid r ∈ seen) → process_trades now seen rows = (seen, some []) := by
  induction rows with
  | nil => intro seen _; rfl
  | cons r rs ih =>
    intro seen h
    have hmem : rowTid r ∈ seen := h r (List.mem_cons_self _ _)
    simp only [process_trades]
    rw [if_pos hmem]
    exact ih seen fun r2 hr2 => h r2 (List.mem_cons_of_mem _ hr2)

/-! ### C1: dedup idempotence -/

/-- C1: if `process_trades` runs a batch to completion from some seen-set
(admitting whatever records it admits), running the *same* batch again
from the resulting seen-set admits exactly zero records and leaves the
seen-set unchanged: every dissemination identifier of the batch was
registered by the first run, so every row is suppressed the second
time. -/
theorem process_trades_idempotent (now : DT) (seen s2 : List String) (rows : List Row)
    (out : List TabTrade) (h : process_trades now seen rows = (s2, some out)) :
    process_trades now s2 rows = (s2, some []) :=
  pt_allseen now rows s2 (pt_ids now rows seen s2 out h)

set_option maxRecDepth 8000 in
/-- Witness for C1: the concrete one-row batch admits `trade0` on the
first run and nothing on the second. -/
theorem process_trades_idempotent_witness :
    process_trades now0 ["101"] [row0] = (["101"], some []) :=
  process_trades_idempotent now0 [] ["101"] [row0] [trade0] (by decide)

/-! ### C9: dedup registration is independent of persistence -/

/-- C9: a batch's dissemination identifiers are registered in the dedup
set during `process_trades` itself; the seen-set after a cycle is the
same whether the database write succeeds or fails, and from any later
seen-set containing it the whole batch is suppressed and re-emits
nothing. -/
theorem dedup_registered_before_save (now : DT) (seen s2 : List String) (rows : List Row)
    (out : List TabTrade) (h : process_trades now seen rows = (s2, some out)) :
    ((run_cycle now seen rows true).1 = s2 ∧ (run_cycle now seen rows false).1 = s2)
      ∧ (∀ r ∈ rows, rowTid r ∈ s2)
      ∧ (∀ seen2, (∀ x ∈ s2, x ∈ seen2) →
          process_trades now seen2 rows = (seen2, some [])) := by
  refine ⟨⟨?_, ?_⟩, pt_ids now rows seen s2 out h, fun seen2 hsub => ?_⟩
  · simp only [run_cycle, h]
    cases save_trades true out <;> rfl
  · simp only [run_cycle, h]
    cases save_trades false out <;> rfl
  · exact pt_allseen now rows seen2 fun r hr => hsub _ (pt_ids now rows seen s2 out h r hr)

set_option maxRecDepth 8000 in
/-- Witness for C9: with a failing database the cycle still ends with
the identifier registered. -/
theorem dedup_registered_before_save_witness :
    (run_cycle now0 [] [row0] false).1 = ["101"] :=
  (dedup_registered_before_save now0 [] ["101"] [row0] [trade0] (by decide)).1.2

/-! ### C4: partial-batch behaviour -/

set_option maxRecDepth 8000 in
/-- C4 counterexample: a batch of five records whose third has an
unparsable date yields five normalized trades in the JSON-API mode (the
date is substituted, the record kept), and in the tabular mode the batch
raises and yields no trades at all — in neither mode does it yield
four. -/
theorem bad_date_batch_not_four :
    (parseBatch now0 apiBatchBadDate).length = 5
      ∧ (parseBatch now0 apiBatchBadDate).length ≠ 4
      ∧ (process_trades now0 [] tabBatchBadDate).2 = none :=
  ⟨by decide, by decide, by decide⟩

set_option maxRecDepth 8000 in
/-- C4 amended: in the JSON-API mode a record that fails type coercion
(e.g. a non-numeric price) is dropped while its siblings in the batch
are still processed — parsing distributes over batch concatenation, and
the five-record batch with a bad price in record 3 yields four trades.
An unparsable *date* does not drop a record there (the current date is
substituted), and the tabular mode has no per-record tolerance at all:
one bad record aborts its whole batch. -/
theorem partial_batch_tolerance_api_only :
    (∀ (now : DT) (l1 l2 : List J),
        parseBatch now (l1 ++ l2) = parseBatch now l1 ++ parseBatch now l2)
      ∧ (parseBatch now0 apiBatchBadPrice).length = 4
      ∧ (parse_trade now0 apiRecBadPrice).isNone = true
      ∧ (parseBatch now0 apiBatchBadDate).length = 5
      ∧ (parse_trade now0 apiRecBadDate).isSome = true
      ∧ (process_trades now0 [] tabBatchBadDate).2 = none :=
  ⟨fun now l1 l2 => by simp [parseBatch],
   by decide, by decide, by decide, by decide, by decide⟩

/-! ### C3: decoder failure behaviour -/

/-- C3 counterexample: in the tabular mode a corrupt archive and an
empty archive both *raise* out of `get_latest_credit_slice` (there is no
handler on this path) instead of yielding an empty sequence. -/
theorem tabular_decoder_raises_on_corrupt_archive :
    get_latest_credit_slice ["CFTC_SLICE_CREDITS_2024_01.ZIP"] ZipBody.corrupt
        = .error ()
      ∧ get_latest_credit_slice ["CFTC_SLICE_CREDITS_2024_01.ZIP"] (ZipBody.archive [])
        = .error () :=
  ⟨rfl, rfl⟩

/-- C3 amended: the JSON-API fetch maps every failure (transport error,
bad status, unparsable JSON, missing container key, non-container body)
to the empty list; the tabular decoder yields an empty result only for
the no-matching-link case (`None`, which `filter_eur_cds` maps to
empty), while a corrupt archive, an empty archive or an unparsable CSV
entry raises and aborts the cycle. -/
theorem decoder_failure_modes :
    fetch_cds_trades FetchOutcome.failure = []
      ∧ (∀ kvs, firstListKey kvs candidateKeys = none →
          fetch_cds_trades (.success (.jobj kvs)) = [])
      ∧ (∀ s, fetch_cds_trades (.success (.jstr s)) = [])
      ∧ fetch_cds_trades (.success .jnull) = []
      ∧ (∀ hrefs body, hrefs.filter sliceLinkMatch = [] →
          get_latest_credit_slice hrefs body = .ok none)
      ∧ filter_eur_cds none = []
      ∧ get_latest_credit_slice ["CFTC_SLICE_CREDITS_1.ZIP"] (ZipBody.archive [.bad])
          = .error () := by
  refine ⟨rfl, fun kvs h => ?_, fun s => rfl, rfl, fun hrefs body h => ?_, rfl, rfl⟩
  · simp [fetch_cds_trades, h]
  · simp [get_latest_credit_slice, h]

/-- Witness for C3's amended claim: a dict body with no candidate
container key yields the empty record list. -/
theorem decoder_failure_modes_witness :
    fetch_cds_trades (.success (.jobj [("foo", .jnum 1)])) = [] :=
  decoder_failure_modes.2.1 [("foo", .jnum 1)] rfl

/-! ### C8: rating derivation -/

theorem tabRating_hy_or_ig (t : String) : tabRating t = "HY" ∨ tabRating t = "IG" := by
  unfold tabRating
  split
  · exact Or.inl rfl
  · exact Or.inr rfl

theorem parseRow_rating (now : DT) (r : Row) (tr : TabTrade) (h : parseRow now r = .ok tr) :
    tr.rating_category = "HY" ∨ tr.rating_category = "IG" := by
  rw [parseRow] at h
  repeat' split at h
  all_goals try exact Except.noConfusion h
  all_goals injection h with h2
  all_goals subst h2
  all_goals exact tabRating_hy_or_ig _

set_option maxRecDepth 8000 in
/-- C8 counterexample: `row0` carries no rating signal of any kind (the
tabular feed has no rating column at all), yet the normalized trade's
`rating_category` is `"IG"`, not `"UNKNOWN"`, derived from the ticker. -/
theorem rating_never_unknown_counterexample :
    (process_trades now0 [] [row0]).2 = some [trade0]
      ∧ trade0.rating_category = "IG"
      ∧ trade0.rating_category ≠ "UNKNOWN" :=
  ⟨by decide, by decide, by decide⟩

/-- C8 amended: the tabular normalizer derives the rating from the
*ticker* — `"HY"` exactly for `TITIM`, `"IG"` for every other ticker —
and every emitted trade is `"HY"` or `"IG"`, never `"UNKNOWN"`; the
JSON-API normalizer has no `rating_category` at all and sets its
`is_hy`/`is_ig` flags by substring match on `ratingClass`, both `false`
when that signal is absent or empty. -/
theorem rating_derivation_spec :
    (∀ t : String, t ≠ "TITIM" → tabRating t = "IG")
      ∧ tabRating "TITIM" = "HY"
      ∧ (∀ now r tr, parseRow now r = .ok tr →
          tr.rating_category = "HY" ∨ tr.rating_category = "IG")
      ∧ (∀ now kvs tr, parse_trade now (.jobj kvs) = some tr →
          pyOr (dictGet kvs "ratingClass" (.jstr "")) (.jstr "") = .jstr "" →
          tr.is_hy = false ∧ tr.is_ig = false) := by
  refine ⟨fun t ht => ?_, rfl, parseRow_rating, fun now kvs tr h hrc => ?_⟩
  · unfold tabRating
    rw [if_neg]
    simpa using ht
  · simp only [parse_trade, hrc, pyUpper] at h
    repeat' split at h
    all_goals try exact Option.noConfusion h
    all_goals injection h with h2
    all_goals subst h2
    all_goals
      exact ⟨show strContains (upperStr "") "HY" = false by decide,
        show strContains (upperStr "") "IG" = false by decide⟩

/-- Witness for C8's amended claim: a ticker other than TITIM maps to
investment grade. -/
theorem rating_derivation_spec_witness : tabRating "SAP" = "IG" :=
  rating_derivation_spec.1 "SAP" (by decide)

/-! ### C10: total timestamp/date parsing -/

/-- C10: `parse_timestamp` and `parse_date` are total: on a string they
return the first matching format's reformatted value and otherwise the
current wall-clock value, and on any non-string they also fall back to
the wall clock (`strptime` raising `TypeError` inside the swallowed
`try`); `parse_trade` returns a record or `None` for every input (a
non-dict yields `None`), never raising — concretely an unparsable
maturity date still yields a record. -/
theorem parse_time_date_total :
    (∀ (now : DT) (s : String), firstTS s = none →
        parse_timestamp now (.jstr s) = fmtHMS now)
      ∧ (∀ (now : DT) (s : String) (dt : DT), firstTS s = some dt →
          parse_timestamp now (.jstr s) = fmtHMS dt)
      ∧ (∀ (now : DT) (v : J), (∀ s, v ≠ .jstr s) → parse_timestamp now v = fmtHMS now)
      ∧ (∀ (now : DT) (s : String), firstD s = none → parse_date now (.jstr s) = fmtYMD now)
      ∧ (∀ (now : DT) (s : String) (dt : DT), firstD s = some dt →
          parse_date now (.jstr s) = fmtYMD dt)
      ∧ (∀ (now : DT) (v : J), (∀ s, v ≠ .jstr s) → parse_date now v = fmtYMD now)
      ∧ parse_timestamp now0 (.jstr "2024-03-04T05:06:07Z") = "05:06:07"
      ∧ parse_timestamp now0 (.jstr "") = "03:04:05"
      ∧ parse_date now0 (.jstr "03/04/2021") = "2021-04-03"
      ∧ parse_date now0 (.jstr "garbage") = "2024-01-02"
      ∧ (∀ (now : DT) (t : J), (∀ kvs, t ≠ .jobj kvs) → parse_trade now t = none)
      ∧ (parse_trade now0 apiRecBadDate).isSome = true := by
  refine ⟨fun now s h => by simp [parse_timestamp, h],
    fun now s dt h => by simp [parse_timestamp, h],
    fun now v hv => ?_,
    fun now s h => by simp [parse_date, h],
    fun now s dt h => by simp [parse_date, h],
    fun now v hv => ?_,
    by decide, by decide, by decide, by decide,
    fun now t ht => ?_,
    by decide⟩
  · cases v with
    | jstr s => exact absurd rfl (hv s)
    | jnull => rfl
    | jnum q => rfl
    | jarr l => rfl
    | jobj kvs => rfl
  · cases v with
    | jstr s => exact absurd rfl (hv s)
    | jnull => rfl
    | jnum q => rfl
    | jarr l => rfl
    | jobj kvs => rfl
  · cases t with
    | jobj kvs => exact absurd rfl (ht kvs)
    | jnull => rfl
    | jnum q => rfl
    | jarr l => rfl
    | jstr s => rfl

/-- Witness for C10: an unmatched timestamp string falls back to the
current wall-clock time. -/
theorem parse_time_date_total_witness :
    parse_timestamp now0 (.jstr "zzz") = fmtHMS now0 :=
  parse_time_date_total.1 now0 "zzz" rfl
